import Mathlib

/-!
Shallow embedding of the OpenHPS example projects (numbered client and server
bootstrap scripts). Each example instantiates prebuilt nodes and services from
external @openhps packages and composes them into processing graphs via
ModelBuilder and GraphBuilder. The definitions below transcribe the literal
configuration objects and graph shapes found in the TypeScript sources.
-/

namespace OpenHPSExamples

/-- A relative RSSI observation attached to a data object
(RelativeRSSI from @openhps/rf, identified by the reference object UID). -/
structure RelativeRSSI where
  referenceObjectUID : String
  rssi : ℚ
deriving DecidableEq, Repr

/-- An absolute position as produced in the examples: 2D or 3D coordinates,
an optional yaw orientation (degrees) and a timestamp. -/
structure Position where
  x : ℚ
  y : ℚ
  z : Option ℚ := none
  yaw : Option ℚ := none
  timestamp : ℚ := 0
deriving DecidableEq, Repr

/-- A data object (DataObject / BLEObject / RFTransmitterObject / WLANObject):
a UID, an optional position, relative RSSI positions, and the RF calibration
fields the beacon examples set. -/
structure DataObject where
  uid : String
  position : Option Position := none
  relativePositions : List RelativeRSSI := []
  environmentFactor : Option ℚ := none
  calibratedRSSI : Option ℤ := none
deriving DecidableEq, Repr

/-- A data frame: a source data object and a created timestamp. -/
structure DataFrame where
  source : DataObject
  createdTimestamp : ℚ := 0
deriving DecidableEq, Repr

/-- Frame filter functions passed as frameFilter options: the examples only
use predicates of the form (frame) => frame.source.uid.endsWith(suffix). -/
inductive FrameFilter where
  | uidEndsWith (suffix : String)
deriving DecidableEq, Repr

/-- Filter functions passed to GraphBuilder.filter in the 12-server online
stage: either a constant function or the position-timestamp check
frame.source.position ? (frame.source.position.timestamp >= frame.createdTimestamp) : false. -/
inductive FilterFn where
  | always (b : Bool)
  | posTimestamp
deriving DecidableEq, Repr

/-- Evaluate a GraphBuilder filter function on a frame, as written in
src/12-server/src/App.ts. -/
def evalFilter : FilterFn → DataFrame → Bool
  | .always b, _ => b
  | .posTimestamp, frame =>
    match frame.source.position with
    | some pos => decide (frame.createdTimestamp ≤ pos.timestamp)
    | none => false

/-- Options of RelativeRSSIProcessing (@openhps/rf). -/
structure RelativeRSSIOptions where
  propagationModel : String
  defaultEnvironmentFactor : Option ℚ := none
  environmentFactor : Option ℚ := none
  defaultCalibratedRSSI : Option ℤ := none
  frameFilter : Option FrameFilter := none
deriving DecidableEq, Repr

/-- Options of MultilaterationNode (@openhps/core). -/
structure MultilaterationOptions where
  minReferences : Option ℕ := none
  maxReferences : Option ℕ := none
  maxIterations : ℕ
  incrementStep : Option ℚ := none
  uid : Option String := none
deriving DecidableEq, Repr

/-- Options of KNNFingerprintingNode (@openhps/fingerprinting). -/
structure KNNOptions where
  classifier : String
  k : ℕ
  weighted : Bool := false
  similarityFunction : String
  weightFunction : String
  uid : Option String := none
  frameFilter : Option FrameFilter := none
deriving DecidableEq, Repr

/-- A node instantiated (or produced by a builder method) in one of the
example processing graphs. Each constructor carries the literal configuration
from the source. -/
inductive PNode where
  | socketServerSource (uid : String) (persistence : Option Bool)
  | socketServerSink (uid : String) (persistence : Bool)
  | socketClientSource (uid : String)
  | socketClientSink (uid : String)
  | callbackSink (tag : String)
  | relativeRSSIProcessing (opts : RelativeRSSIOptions)
  | multilaterationNode (opts : MultilaterationOptions)
  | knnFingerprintingNode (opts : KNNOptions)
  | fingerprintingNode (classifier : String) (frameFilter : FrameFilter)
  | cellIdentificationNode (maxDistance : ℚ)
  | frameMergeNode (timeout : ℕ) (minCount : ℕ)
  | accuracyModifierNode (value : ℚ)
  | filterNode (fn : FilterFn)
  | cloneNode
  | storeSink
  | placeholder (name : String)
  | emptySource
deriving DecidableEq, Repr

/-- A chain of a graph shape: the nodes from a source to a sink in order. -/
abbrev Chain := List PNode

/-- Database driver backing a data service. -/
inductive DBDriver where
  | memory (objectType : String)
  | mongo (objectType : String) (dbURL : String) (dbName : String)
deriving DecidableEq, Repr

/-- Options of FingerprintService (@openhps/fingerprinting). The groupBy
lambda is abstracted to a flag recording whether it was supplied. -/
structure FingerprintServiceOptions where
  classifier : String
  autoUpdate : Bool
  defaultValue : Option ℤ := none
  groupByPosOrientation : Bool := false
deriving DecidableEq, Repr

/-- A service registered on a model builder. -/
inductive Service where
  | socketServer (srvPort : ℕ) (path : String)
  | socketClient (url : String) (path : String)
  | dataObjectService (driver : DBDriver)
  | fingerprintService (driver : DBDriver) (opts : FingerprintServiceOptions)
deriving DecidableEq, Repr

/-! Nodes instantiated by the individual examples, with their literal
configuration objects transcribed from the TypeScript sources. Fractional
numeric literals are written as rationals (2.0 as 2, 1.5 as 15/10, and so on). -/

/-- RelativeRSSIProcessing of the unnamed server example (src/unnamed/part_001). -/
def rrpU : PNode := .relativeRSSIProcessing
  { propagationModel := "LOG_DISTANCE", defaultEnvironmentFactor := some 2 }

/-- MultilaterationNode of the unnamed server example (src/unnamed/part_001). -/
def mlU : PNode := .multilaterationNode
  { minReferences := some 1, maxReferences := some 9, maxIterations := 1000 }

/-- RelativeRSSIProcessing of 6-server. -/
def rrp6 : PNode := .relativeRSSIProcessing
  { propagationModel := "LOG_DISTANCE", environmentFactor := some 2,
    defaultCalibratedRSSI := some (-69), frameFilter := some (.uidEndsWith "_ble") }

/-- MultilaterationNode of 6-server. -/
def ml6 : PNode := .multilaterationNode
  { minReferences := some 1, maxReferences := some 9, maxIterations := 1000 }

/-- KNNFingerprintingNode of 6-server. -/
def knn6 : PNode := .knnFingerprintingNode
  { classifier := "wlan", k := 3, similarityFunction := "EUCLIDEAN",
    weightFunction := "SQUARE", frameFilter := some (.uidEndsWith "_wlan") }

/-- BLE KNNFingerprintingNode of the 12-server online stage. -/
def knnBle12 : PNode := .knnFingerprintingNode
  { classifier := "ble", k := 3, weighted := true, similarityFunction := "EUCLIDEAN",
    weightFunction := "SQUARE", uid := some "ble-fingerprinting" }

/-- WLAN KNNFingerprintingNode of the 12-server online stage. -/
def knnWlan12 : PNode := .knnFingerprintingNode
  { classifier := "wlan", k := 4, weighted := true, similarityFunction := "EUCLIDEAN",
    weightFunction := "SQUARE", uid := some "wlan-fingerprinting" }

/-- RelativeRSSIProcessing feeding cell identification in 12-server. -/
def rrpCell12 : PNode := .relativeRSSIProcessing { propagationModel := "LOG_DISTANCE" }

/-- RelativeRSSIProcessing feeding multilateration in 12-server. -/
def rrpMl12 : PNode := .relativeRSSIProcessing { propagationModel := "LOG_DISTANCE" }

/-- MultilaterationNode of 12-server. -/
def ml12 : PNode := .multilaterationNode
  { maxIterations := 1000, incrementStep := some (1/2), minReferences := some 2,
    uid := some "ble-multilateration" }

/-- CellIdentificationNode of 12-server (maxDistance 1.5). -/
def cell12 : PNode := .cellIdentificationNode (15/10)

/-- FrameMergeNode of 12-server (timeout 300 ms, minCount 1). -/
def merge12 : PNode := .frameMergeNode 300 1

/-- FingerprintingNode for WLAN offline fingerprints in 12-server. -/
def fpWlan12 : PNode := .fingerprintingNode "wlan" (.uidEndsWith "_wlan")

/-- FingerprintingNode for BLE offline fingerprints in 12-server. -/
def fpBle12 : PNode := .fingerprintingNode "ble" (.uidEndsWith "_ble")

/-- The position-timestamp filter node used four times in the 12-server
online stage, each time directly after a positioning node. -/
def filterPos : PNode := .filterNode .posTimestamp

/-- The constant-true filter node at the head of each 12-server online branch. -/
def filterTrue : PNode := .filterNode (.always true)

/-! Graph shapes of each example, as lists of source-to-sink chains. -/

/-- Chains of 1-server. -/
def server1Chains : List Chain :=
  [[.socketServerSource "test" none, .callbackSink "log-frame"]]

/-- Chains of 3-server. -/
def server3Chains : List Chain :=
  [[.socketServerSource "test" none, .callbackSink "log-frame"],
   [.socketServerSource "calibration" none, .storeSink]]

/-- Chains of the unnamed server example (src/unnamed/part_001). -/
def serverUChains : List Chain :=
  [[.socketServerSource "online" none, rrpU, mlU, .callbackSink "log-position"],
   [.socketServerSource "calibration" none, .storeSink]]

/-- Chains of 6-server: the online fan-out to two placeholders, the
multilateration and fingerprinting shapes, and the calibration shape. -/
def server6Chains : List Chain :=
  [[.socketServerSource "online" none, .placeholder "multilateration"],
   [.socketServerSource "online" none, .placeholder "fingerprinting"],
   [.placeholder "multilateration", rrp6, ml6, .callbackSink "log-position-multilateration"],
   [.placeholder "fingerprinting", knn6, .callbackSink "log-position-fingerprinting"],
   [.socketServerSource "calibration" none, .storeSink],
   [.placeholder "server-calibration", .storeSink]]

/-- Chains of the 12-server offline stage: both sources fan out to both
fingerprinting nodes and end in the store sink. -/
def server12OfflineChains : List Chain :=
  [[.socketServerSource "offline" (some false), fpWlan12, .storeSink],
   [.socketServerSource "offline" (some false), fpBle12, .storeSink],
   [.placeholder "internal", fpWlan12, .storeSink],
   [.placeholder "internal", fpBle12, .storeSink]]

/-- The four parallel branches of the 12-server online stage. -/
def server12OnlineBranches : List Chain :=
  [[filterTrue, .cloneNode, knnBle12, filterPos, .accuracyModifierNode 15],
   [filterTrue, .cloneNode, knnWlan12, filterPos, .accuracyModifierNode (12/10)],
   [filterTrue, .cloneNode, rrpCell12, cell12, filterPos],
   [filterTrue, .cloneNode, rrpMl12, ml12, filterPos, .accuracyModifierNode 15]]

/-- Chains of the 12-server online stage: each branch runs from the online
socket source through the frame merge node into the feedback socket sink. -/
def server12OnlineChains : List Chain :=
  server12OnlineBranches.map
    (fun b => .socketServerSource "online" (some true) :: b ++ [merge12, .socketServerSink "feedback" false])

/-- Chains of the unnamed client example (src/unnamed/part_000). -/
def clientUChains : List Chain :=
  [[.emptySource, .socketClientSink "test"]]

/-- Chains of 5-client. -/
def client5Chains : List Chain :=
  [[.emptySource, .socketClientSink "online"]]

/-- Chains of 9-client. -/
def client9Chains : List Chain :=
  [[.emptySource, .socketClientSink "online"],
   [.socketClientSource "output", .callbackSink "log-response"]]

/-- All chains declared across the examples. -/
def allChains : List Chain :=
  server1Chains ++ server3Chains ++ serverUChains ++ server6Chains ++
  server12OfflineChains ++ server12OnlineChains ++
  clientUChains ++ client5Chains ++ client9Chains

/-- All nodes occurring in the example processing graphs. -/
def allNodes : List PNode := allChains.flatten

/-! Services registered by each example. -/

/-- Services of 1-server. -/
def server1Services : List Service := [.socketServer 3000 "/api/v1"]

/-- Services of 3-server. -/
def server3Services : List Service :=
  [.socketServer 3000 "/api/v1", .dataObjectService (.memory "RFTransmitterObject")]

/-- Services of the unnamed server example. -/
def serverUServices : List Service :=
  [.socketServer 3000 "/api/v1", .dataObjectService (.memory "RFTransmitterObject")]

/-- Services of 6-server. -/
def server6Services : List Service :=
  [.socketServer 3000 "/api/v1",
   .dataObjectService (.memory "BLEObject"),
   .fingerprintService (.memory "Fingerprint") { classifier := "wlan", autoUpdate := false }]

/-- Services of 12-server. -/
def server12Services : List Service :=
  [.socketServer 3000 "/api/v1",
   .fingerprintService (.mongo "Fingerprint" "mongodb://localhost:27017" "ipin2021")
     { classifier := "wlan", autoUpdate := false, defaultValue := some (-95),
       groupByPosOrientation := true },
   .fingerprintService (.mongo "Fingerprint" "mongodb://localhost:27017" "ipin2021")
     { classifier := "ble", autoUpdate := false, defaultValue := some (-100),
       groupByPosOrientation := true },
   .dataObjectService (.mongo "WLANObject" "mongodb://localhost:27017" "ipin2021"),
   .dataObjectService (.mongo "BLEObject" "mongodb://localhost:27017" "ipin2021")]

/-- The single SocketClient service shared by all client examples. -/
def clientServices : List Service := [.socketClient "http://localhost:3000" "/api/v1"]

/-- A server example: its HTTP port and declared services and chains. -/
structure ServerExample where
  name : String
  httpPort : ℕ
  services : List Service
  chains : List Chain
deriving DecidableEq, Repr

/-- A client example: its declared services and chains. -/
structure ClientExample where
  name : String
  services : List Service
  chains : List Chain
deriving DecidableEq, Repr

/-- The five server examples. -/
def serverExamples : List ServerExample :=
  [{ name := "1-server", httpPort := 3000, services := server1Services, chains := server1Chains },
   { name := "3-server", httpPort := 3000, services := server3Services, chains := server3Chains },
   { name := "unnamed-server", httpPort := 3000, services := serverUServices, chains := serverUChains },
   { name := "6-server", httpPort := 3000, services := server6Services, chains := server6Chains },
   { name := "12-server", httpPort := 3000, services := server12Services,
     chains := server12OfflineChains ++ server12OnlineChains }]

/-- The three client examples. -/
def clientExamples : List ClientExample :=
  [{ name := "unnamed-client", services := clientServices, chains := clientUChains },
   { name := "5-client", services := clientServices, chains := client5Chains },
   { name := "9-client", services := clientServices, chains := client9Chains }]

/-! Initialization traces. Each server example constructs an HTTP server,
registers services on a ModelBuilder, declares its shapes, builds the model
(logging that the model is ready) and optionally loads calibration data.
The traces below transcribe the order of these steps in each App. -/

/-- One step of an example server initialization. -/
inductive InitStep where
  | createHttpServer (port : ℕ)
  | addService (s : Service)
  | declareGraph (shapes : List Chain)
  | buildReady
  | loadCalibration (desc : String)
deriving DecidableEq, Repr

/-- Initialization trace of 1-server: constructor runs initServer then
initModel. -/
def server1Init : List InitStep :=
  [.createHttpServer 3000,
   .addService (.socketServer 3000 "/api/v1"),
   .declareGraph server1Chains,
   .buildReady]

/-- Initialization trace of 3-server: initServer, initModel, initBeacons. -/
def server3Init : List InitStep :=
  [.createHttpServer 3000,
   .addService (.socketServer 3000 "/api/v1"),
   .addService (.dataObjectService (.memory "RFTransmitterObject")),
   .declareGraph server3Chains,
   .buildReady,
   .loadCalibration "initBeacons"]

/-- Initialization trace of the unnamed server example: initServer,
initModel, initBeacons. -/
def serverUInit : List InitStep :=
  [.createHttpServer 3000,
   .addService (.socketServer 3000 "/api/v1"),
   .addService (.dataObjectService (.memory "RFTransmitterObject")),
   .declareGraph serverUChains,
   .buildReady,
   .loadCalibration "initBeacons"]

/-- Initialization trace of 6-server: initServer, initModel, initBeacons,
loadFingerprints. -/
def server6Init : List InitStep :=
  [.createHttpServer 3000,
   .addService (.socketServer 3000 "/api/v1"),
   .addService (.dataObjectService (.memory "BLEObject")),
   .addService (.fingerprintService (.memory "Fingerprint")
     { classifier := "wlan", autoUpdate := false }),
   .declareGraph server6Chains,
   .buildReady,
   .loadCalibration "initBeacons",
   .loadCalibration "loadFingerprints"]

/-- Initialization trace of 12-server: initServer, initModel, loadDataset. -/
def server12Init : List InitStep :=
  .createHttpServer 3000 ::
  server12Services.map .addService ++
  [.declareGraph (server12OfflineChains ++ server12OnlineChains),
   .buildReady,
   .loadCalibration "loadDataset"]

/-- Initialization traces of all five server examples. -/
def serverInits : List (List InitStep) :=
  [server1Init, server3Init, serverUInit, server6Init, server12Init]

/-! Import provenance: the table of every node, service and data constructor
the examples instantiate, with the package each is imported from. -/

/-- The imported constructor names used by the examples, with the package
each one comes from in the import statements of the sources. -/
def openhpsImports : List (String × String) :=
  [("ModelBuilder", "@openhps/core"),
   ("GraphBuilder", "@openhps/core"),
   ("CallbackSinkNode", "@openhps/core"),
   ("MultilaterationNode", "@openhps/core"),
   ("CellIdentificationNode", "@openhps/core"),
   ("FrameMergeNode", "@openhps/core"),
   ("AccuracyModifierNode", "@openhps/core"),
   ("DataObjectService", "@openhps/core"),
   ("MemoryDataService", "@openhps/core"),
   ("DataFrame", "@openhps/core"),
   ("DataObject", "@openhps/core"),
   ("Absolute2DPosition", "@openhps/core"),
   ("Absolute3DPosition", "@openhps/core"),
   ("Orientation", "@openhps/core"),
   ("SocketServer", "@openhps/socket"),
   ("SocketServerSource", "@openhps/socket"),
   ("SocketServerSink", "@openhps/socket"),
   ("SocketClient", "@openhps/socket"),
   ("SocketClientSource", "@openhps/socket"),
   ("SocketClientSink", "@openhps/socket"),
   ("RelativeRSSIProcessing", "@openhps/rf"),
   ("RelativeRSSI", "@openhps/rf"),
   ("RFTransmitterObject", "@openhps/rf"),
   ("BLEObject", "@openhps/rf"),
   ("WLANObject", "@openhps/rf"),
   ("KNNFingerprintingNode", "@openhps/fingerprinting"),
   ("FingerprintingNode", "@openhps/fingerprinting"),
   ("FingerprintService", "@openhps/fingerprinting"),
   ("Fingerprint", "@openhps/fingerprinting"),
   ("MongoDataServiceDriver", "@openhps/mongodb")]

/-- The imported constructor a node instantiates, if any. Placeholders, empty
sources and the GraphBuilder methods store, filter and clone are not themselves
constructors brought in by an import statement. -/
def ctorName : PNode → Option String
  | .socketServerSource _ _ => some "SocketServerSource"
  | .socketServerSink _ _ => some "SocketServerSink"
  | .socketClientSource _ => some "SocketClientSource"
  | .socketClientSink _ => some "SocketClientSink"
  | .callbackSink _ => some "CallbackSinkNode"
  | .relativeRSSIProcessing _ => some "RelativeRSSIProcessing"
  | .multilaterationNode _ => some "MultilaterationNode"
  | .knnFingerprintingNode _ => some "KNNFingerprintingNode"
  | .fingerprintingNode _ _ => some "FingerprintingNode"
  | .cellIdentificationNode _ => some "CellIdentificationNode"
  | .frameMergeNode _ _ => some "FrameMergeNode"
  | .accuracyModifierNode _ => some "AccuracyModifierNode"
  | .filterNode _ => none
  | .cloneNode => none
  | .storeSink => none
  | .placeholder _ => none
  | .emptySource => none

/-- The imported constructors backing a database driver. -/
def driverCtorNames : DBDriver → List String
  | .memory _ => ["MemoryDataService"]
  | .mongo _ _ _ => ["MongoDataServiceDriver"]

/-- The imported constructors a service instantiation uses. -/
def serviceCtorNames : Service → List String
  | .socketServer _ _ => ["SocketServer"]
  | .socketClient _ _ => ["SocketClient"]
  | .dataObjectService d => "DataObjectService" :: driverCtorNames d
  | .fingerprintService d _ => "FingerprintService" :: driverCtorNames d

/-- All services registered across the examples. -/
def allServices : List Service :=
  server1Services ++ server3Services ++ serverUServices ++ server6Services ++
  server12Services ++ clientServices

/-! Node classification helpers. -/

/-- Whether a node is a MultilaterationNode. -/
def PNode.isMultilateration : PNode → Bool
  | .multilaterationNode _ => true
  | _ => false

/-- Whether a node is a RelativeRSSIProcessing node. -/
def PNode.isRRP : PNode → Bool
  | .relativeRSSIProcessing _ => true
  | _ => false

/-- Whether a node is a KNNFingerprintingNode. -/
def PNode.isKNN : PNode → Bool
  | .knnFingerprintingNode _ => true
  | _ => false

/-- Whether a node is a CellIdentificationNode. -/
def PNode.isCellId : PNode → Bool
  | .cellIdentificationNode _ => true
  | _ => false

/-- Whether a node is a FrameMergeNode. -/
def PNode.isFrameMerge : PNode → Bool
  | .frameMergeNode _ _ => true
  | _ => false

/-- Whether a node computes a position for the frame source: the
multilateration, KNN fingerprinting and cell identification nodes. -/
def PNode.isPositioning : PNode → Bool
  | .multilaterationNode _ => true
  | .knnFingerprintingNode _ => true
  | .cellIdentificationNode _ => true
  | _ => false

/-! The CSV calibration loaders. A parsed CSV row with dynamic column names
is modelled as an association list from column keys to the numeric values the
loaders obtain with parseFloat and parseInt. -/

/-- Whether pat is a leading block of s (character lists). -/
def charsHaveLead : List Char → List Char → Bool
  | _, [] => true
  | [], _ :: _ => false
  | c :: cs, p :: ps => c = p && charsHaveLead cs ps

/-- Whether pat occurs as a contiguous block of s (character lists). -/
def charsInclude (pat : List Char) : List Char → Bool
  | [] => charsHaveLead [] pat
  | c :: cs => charsHaveLead (c :: cs) pat || charsInclude pat cs

/-- The JavaScript String.includes check. -/
def strIncludes (s pat : String) : Bool := charsInclude pat.data s.data

/-- The JavaScript String.startsWith check. -/
def strStartsWith (s pat : String) : Bool := charsHaveLead s.data pat.data

/-- A parsed CSV row with dynamic columns: keys paired with parsed numbers. -/
abbrev CsvRow := List (String × ℚ)

/-- A parsed row of data/ble_devices.csv in 6-server: ID, X, Y, Z. -/
structure BeaconRow6 where
  id : String
  x : ℚ
  y : ℚ
  z : ℚ
deriving DecidableEq, Repr

/-- The beacon built per row by 6-server initBeacons: a BLEObject at a 3D
position, with environment factor 2.0 and calibrated RSSI -69. -/
def parseBeacon6 (r : BeaconRow6) : DataObject :=
  { uid := r.id,
    position := some { x := r.x, y := r.y, z := some r.z },
    environmentFactor := some 2,
    calibratedRSSI := some (-69) }

/-- A fingerprint as built by 6-server loadFingerprints. -/
structure Fingerprint where
  classifier : String
  createdTimestamp : ℚ
  x : ℚ
  y : ℚ
  yaw : ℚ
  features : List (String × ℚ)
deriving DecidableEq, Repr

/-- The feature loop of 6-server loadFingerprints: every column whose key
starts with WAP_ is added as a feature. -/
def wapFeatures : CsvRow → List (String × ℚ)
  | [] => []
  | (k, v) :: rest =>
    if strStartsWith k "WAP_" then (k, v) :: wapFeatures rest else wapFeatures rest

/-- The fingerprint built per row of data/wlan_fingerprints.csv by 6-server
loadFingerprints. -/
def parseFingerprint6 (row : CsvRow) : Fingerprint :=
  { classifier := "wlan",
    createdTimestamp := (row.lookup "TIMESTAMP").getD 0,
    x := (row.lookup "X").getD 0,
    y := (row.lookup "Y").getD 0,
    yaw := (row.lookup "ORIENTATION").getD 0,
    features := wapFeatures row }

/-- A parsed row of ble_devices.csv in 12-server: ID, X, Y, TIMESTAMP. -/
structure BeaconRow12 where
  id : String
  x : ℚ
  y : ℚ
  timestamp : ℚ
deriving DecidableEq, Repr

/-- The frame built per row by 12-server loadBLEBeacons: a BLEObject at a 2D
position with calibrated RSSI -65 and environment factor 2.2. -/
def parseBLEBeacon12 (r : BeaconRow12) : DataFrame :=
  { source := { uid := r.id,
                position := some { x := r.x, y := r.y },
                calibratedRSSI := some (-65),
                environmentFactor := some (22/10) },
    createdTimestamp := r.timestamp }

/-- The 12-server loadBLEBeacons loader over all rows of ble_devices.csv. -/
def loadBLEBeacons (rows : List BeaconRow12) : List DataFrame :=
  rows.map parseBLEBeacon12

/-- The for-in loop of 12-server loadTrainBLE and loadTrainWLAN: a
RelativeRSSI to the key is added for every column whose key includes the
given pattern and whose parsed value is not equal to 100. -/
def collectRelativeRSSI (pat : String) : CsvRow → List RelativeRSSI
  | [] => []
  | (k, v) :: rest =>
    if strIncludes k pat = true ∧ v ≠ 100 then
      { referenceObjectUID := k, rssi := v } :: collectRelativeRSSI pat rest
    else
      collectRelativeRSSI pat rest

/-- The frame built per row of ble_fingerprints.csv by 12-server
loadTrainBLE: the object phone_ble positioned at (X, Y) with yaw ORIENTATION,
carrying a RelativeRSSI for every BEACON_ column whose value is not 100. -/
def parseTrainBLERow (row : CsvRow) : DataFrame :=
  { source := { uid := "phone_ble",
                position := some { x := (row.lookup "X").getD 0,
                                   y := (row.lookup "Y").getD 0,
                                   yaw := some ((row.lookup "ORIENTATION").getD 0) },
                relativePositions := collectRelativeRSSI "BEACON_" row },
    createdTimestamp := (row.lookup "TIMESTAMP").getD 0 }

/-- The 12-server loadTrainBLE loader over all rows. -/
def loadTrainBLE (rows : List CsvRow) : List DataFrame :=
  rows.map parseTrainBLERow

/-- The frame built per row of wlan_fingerprints.csv by 12-server
loadTrainWLAN: the object phone_wlan positioned at (X, Y) with yaw
ORIENTATION, carrying a RelativeRSSI for every WAP_ column whose value is
not 100. -/
def parseTrainWLANRow (row : CsvRow) : DataFrame :=
  { source := { uid := "phone_wlan",
                position := some { x := (row.lookup "X").getD 0,
                                   y := (row.lookup "Y").getD 0,
                                   yaw := some ((row.lookup "ORIENTATION").getD 0) },
                relativePositions := collectRelativeRSSI "WAP_" row },
    createdTimestamp := (row.lookup "TIMESTAMP").getD 0 }

/-- The 12-server loadTrainWLAN loader over all rows. -/
def loadTrainWLAN (rows : List CsvRow) : List DataFrame :=
  rows.map parseTrainWLANRow

/-! Event traces of the calibration loading steps: which records are parsed
and stored, and the position of the resolve step relative to them. -/

/-- One event of a calibration loading step. -/
inductive LoadEvent (α : Type) where
  | parsed (r : α)
  | stored (r : α)
  | updated (classifier : String)
  | resolve
deriving DecidableEq, Repr

/-- Event trace of 6-server initBeacons: all rows of data/ble_devices.csv
are parsed, on stream close all beacons are inserted into the BLEObject data
service, and only then does the promise resolve. -/
def initBeacons6Trace (rows : List BeaconRow6) : List (LoadEvent DataObject) :=
  rows.map (fun r => .parsed (parseBeacon6 r)) ++
  (rows.map parseBeacon6).map .stored ++ [.resolve]

/-- Event trace of 6-server loadFingerprints: all rows of
data/wlan_fingerprints.csv are parsed, all fingerprints are inserted into the
fingerprint service, the service is updated, and only then resolve. -/
def loadFingerprints6Trace (rows : List CsvRow) : List (LoadEvent Fingerprint) :=
  rows.map (fun r => .parsed (parseFingerprint6 r)) ++
  (rows.map parseFingerprint6).map .stored ++ [.updated "wlan", .resolve]

/-- The frames produced by the three 12-server CSV loaders, in the order the
results of Promise.all are pushed by loadDataset. -/
def loadDatasetFrames (beaconRows : List BeaconRow12) (wlanRows bleRows : List CsvRow) :
    List DataFrame :=
  loadBLEBeacons beaconRows ++ loadTrainWLAN wlanRows ++ loadTrainBLE bleRows

/-- Event trace of 12-server loadDataset: every loaded frame is parsed and
pushed to the storing offline pipeline (each push being awaited), afterwards
both fingerprint services are updated, and only then does loadDataset
resolve. -/
def loadDataset12Trace (beaconRows : List BeaconRow12) (wlanRows bleRows : List CsvRow) :
    List (LoadEvent DataFrame) :=
  (loadDatasetFrames beaconRows wlanRows bleRows).map .parsed ++
  (loadDatasetFrames beaconRows wlanRows bleRows).map .stored ++
  [.updated "wlan", .updated "ble", .resolve]

/-- How a calibration loading step obtains its data. -/
inductive CalSource where
  | csvFiles (files : List String)
  | docDB (dbName : String)
deriving DecidableEq, Repr

/-- The calibration loading steps of the examples and their data sources. -/
def calibrationLoaders : List (String × CalSource) :=
  [("6-server initBeacons", .csvFiles ["data/ble_devices.csv"]),
   ("6-server loadFingerprints", .csvFiles ["data/wlan_fingerprints.csv"]),
   ("12-server loadDataset",
     .csvFiles ["ble_devices.csv", "wlan_fingerprints.csv", "ble_fingerprints.csv"])]

/-- The k parameter of a KNN fingerprinting node, if the node is one. -/
def knnK : PNode → Option ℕ
  | .knnFingerprintingNode o => some o.k
  | _ => none

/-- The uid option of a KNN fingerprinting node, if the node is one. -/
def knnUid : PNode → Option String
  | .knnFingerprintingNode o => o.uid
  | _ => none

/-- The maxIterations parameter of a multilateration node, if the node is
one. -/
def mlMaxIterations : PNode → Option ℕ
  | .multilaterationNode o => some o.maxIterations
  | _ => none

/-- Whether a node is a GraphBuilder filter node. -/
def PNode.isFilter : PNode → Bool
  | .filterNode _ => true
  | _ => false

/-- Whether a service is a SocketServer. -/
def Service.isSocketServer : Service → Bool
  | .socketServer _ _ => true
  | _ => false

/-- Whether a service is a SocketClient. -/
def Service.isSocketClient : Service → Bool
  | .socketClient _ _ => true
  | _ => false

/-- Whether a constructor name is imported from an @openhps package according
to the provenance table of the example sources. -/
def importedFromOpenhps (n : String) : Bool :=
  openhpsImports.any (fun e => e.1 = n && strStartsWith e.2 "@openhps/")

/-- Whether a list of shapes chains at least one prebuilt imported node
constructor. -/
def graphHasPrebuilt (shapes : List Chain) : Bool :=
  shapes.any (fun c => c.any (fun n => (ctorName n).isSome))

/-- After the graph declaration: scan for the build-ready step. -/
def afterGraphReady : List InitStep → Bool
  | [] => false
  | .buildReady :: _ => true
  | _ :: rest => afterGraphReady rest

/-- After the socket server service: scan for a graph declaration chaining a
prebuilt constructor, followed by the build-ready step. -/
def afterServiceGraph : List InitStep → Bool
  | [] => false
  | .declareGraph shapes :: rest =>
    if graphHasPrebuilt shapes then afterGraphReady rest else afterServiceGraph rest
  | _ :: rest => afterServiceGraph rest

/-- After the HTTP server creation: scan for the registration of a
SocketServer on the same port, followed by a graph declaration and the
build-ready step. -/
def afterServerService (p : ℕ) : List InitStep → Bool
  | [] => false
  | .addService (.socketServer q _) :: rest =>
    if q = p then afterServiceGraph rest else afterServerService p rest
  | _ :: rest => afterServerService p rest

/-- Whether an initialization trace creates an HTTP server, then registers a
SocketServer on that server, then declares a graph chaining prebuilt node
constructors, and then reports the model ready. -/
def serverInitOK : List InitStep → Bool
  | [] => false
  | .createHttpServer p :: rest => afterServerService p rest
  | _ :: rest => serverInitOK rest

/-! Helper lemmas shared by the trace and loader theorems. -/

/-- The relative RSSI collection loop equals a filter of the row by the
pattern and the not-100 condition, mapped to RelativeRSSI records. -/
lemma collectRelativeRSSI_eq (pat : String) (row : CsvRow) :
    collectRelativeRSSI pat row =
      (row.filter (fun kv => strIncludes kv.1 pat && decide (kv.2 ≠ 100))).map
        (fun kv => { referenceObjectUID := kv.1, rssi := kv.2 }) := by
  induction row with
  | nil => rfl
  | cons kv rest ih =>
    obtain ⟨k, v⟩ := kv
    simp only [List.filter_cons]
    by_cases hb : (strIncludes k pat && decide (v ≠ 100)) = true
    · have h : strIncludes k pat = true ∧ v ≠ 100 := by simpa using hb
      simp [collectRelativeRSSI, if_pos h, hb, ih]
    · have h : ¬ (strIncludes k pat = true ∧ v ≠ 100) := by simpa using hb
      simp [collectRelativeRSSI, if_neg h, hb, ih]

/-- Every record collected by the relative RSSI loop includes the pattern in
its key and has an RSSI different from 100. -/
lemma collectRelativeRSSI_mem (pat : String) (row : CsvRow) :
    ∀ rel ∈ collectRelativeRSSI pat row,
      strIncludes rel.referenceObjectUID pat = true ∧ rel.rssi ≠ 100 := by
  intro rel hrel
  rw [collectRelativeRSSI_eq] at hrel
  obtain ⟨⟨k, v⟩, hkv, rfl⟩ := List.mem_map.mp hrel
  obtain ⟨-, hc⟩ := List.mem_filter.mp hkv
  simpa using hc

/-! The claims. -/

/-- C1 counterexample: the WLAN KNN fingerprinting node of the 12-server
online stage is instantiated in a processing graph with k equal to 4, so not
every KNNFingerprintingNode is configured with k equal to 3. -/
theorem knn_k_counterexample :
    knnWlan12 ∈ allNodes ∧ knnWlan12.isKNN = true ∧ knnK knnWlan12 = some 4 ∧
    ¬ (∀ p ∈ allNodes, p.isKNN = true → knnK p = some 3) := by
  decide

/-- C1 (amended): every KNNFingerprintingNode instantiated in any example
processing graph is configured with k equal to 3, except the
wlan-fingerprinting node of the 12-server online stage, which uses k equal
to 4. -/
theorem knn_k_values :
    ∀ p ∈ allNodes, p.isKNN = true →
      (knnK p = some 3 ∨ (knnUid p = some "wlan-fingerprinting" ∧ knnK p = some 4)) := by
  decide

/-- C1 witness: the 6-server KNN node is in a graph and has k equal to 3. -/
theorem knn_k_values_witness :
    knn6 ∈ allNodes ∧ knn6.isKNN = true ∧
    (knnK knn6 = some 3 ∨ (knnUid knn6 = some "wlan-fingerprinting" ∧ knnK knn6 = some 4)) :=
  ⟨by decide, by decide, knn_k_values knn6 (by decide) (by decide)⟩

/-- C2: every MultilaterationNode instantiated in any example processing
graph is configured with maxIterations equal to 1000. -/
theorem multilateration_maxIterations_1000 :
    ∀ p ∈ allNodes, p.isMultilateration = true → mlMaxIterations p = some 1000 := by
  decide

/-- C2 witness: the 6-server multilateration node is in a graph and has
maxIterations equal to 1000. -/
theorem multilateration_maxIterations_1000_witness :
    ml6 ∈ allNodes ∧ ml6.isMultilateration = true ∧ mlMaxIterations ml6 = some 1000 :=
  ⟨by decide, by decide, multilateration_maxIterations_1000 ml6 (by decide) (by decide)⟩

/-- C3: in every chain of every example graph, whenever a
RelativeRSSIProcessing node and a MultilaterationNode both occur, the
RelativeRSSIProcessing node occurs strictly before the MultilaterationNode. -/
theorem rssi_processing_before_multilateration :
    ∀ c ∈ allChains, ∀ i j : Fin c.length,
      (c.get i).isRRP = true → (c.get j).isMultilateration = true →
      (i : ℕ) < (j : ℕ) := by
  decide

/-- C3 witness: in the online chain of the unnamed server example, the
RelativeRSSIProcessing node at index 1 precedes the MultilaterationNode at
index 2. -/
theorem rssi_processing_before_multilateration_witness :
    [PNode.socketServerSource "online" none, rrpU, mlU, PNode.callbackSink "log-position"]
        ∈ allChains ∧
    (1 : ℕ) < (2 : ℕ) :=
  ⟨by decide,
   rssi_processing_before_multilateration
     [PNode.socketServerSource "online" none, rrpU, mlU, PNode.callbackSink "log-position"]
     (by decide) ⟨1, by decide⟩ ⟨2, by decide⟩ (by decide) (by decide)⟩

/-- C4: every server example initialization creates an HTTP server, then
registers a SocketServer on that server, then declares a processing graph
chaining prebuilt node constructors, and only then reports the model ready. -/
theorem server_init_structure :
    ∀ steps ∈ serverInits, serverInitOK steps = true := by
  decide

/-- C4 witness: the 1-server initialization trace satisfies the
initialization structure check. -/
theorem server_init_structure_witness :
    server1Init ∈ serverInits ∧ serverInitOK server1Init = true :=
  ⟨by decide, server_init_structure server1Init (by decide)⟩

/-- C5: every calibration loading step obtains its data by parsing CSV
files, and in each loading step every parsed record is stored before the
step resolves: the 6-server beacon loader inserts every parsed beacon, the
6-server fingerprint loader inserts every parsed fingerprint and updates the
service, and the 12-server dataset loader pushes every loaded frame to the
storing offline pipeline and updates both fingerprint services, in each case
with the resolve event strictly after all the store events. -/
theorem calibration_loading_stores_before_resolve :
    (∀ l ∈ calibrationLoaders, ∃ fs, l.2 = CalSource.csvFiles fs ∧ fs ≠ []) ∧
    (∀ rows : List BeaconRow6, ∃ pre,
      initBeacons6Trace rows = pre ++ [.resolve] ∧
      ∀ r ∈ rows, LoadEvent.stored (parseBeacon6 r) ∈ pre) ∧
    (∀ rows : List CsvRow, ∃ pre,
      loadFingerprints6Trace rows = pre ++ [.updated "wlan", .resolve] ∧
      ∀ r ∈ rows, LoadEvent.stored (parseFingerprint6 r) ∈ pre) ∧
    (∀ (beaconRows : List BeaconRow12) (wlanRows bleRows : List CsvRow), ∃ pre,
      loadDataset12Trace beaconRows wlanRows bleRows =
        pre ++ [.updated "wlan", .updated "ble", .resolve] ∧
      ∀ f ∈ loadDatasetFrames beaconRows wlanRows bleRows, LoadEvent.stored f ∈ pre) := by
  refine ⟨?_, ?_, ?_, ?_⟩
  · intro l hl
    fin_cases hl <;> exact ⟨_, rfl, by simp⟩
  · intro rows
    refine ⟨rows.map (fun r => .parsed (parseBeacon6 r)) ++ (rows.map parseBeacon6).map .stored,
      by simp [initBeacons6Trace], ?_⟩
    intro r hr
    exact List.mem_append_right _ (List.mem_map_of_mem _ (List.mem_map_of_mem _ hr))
  · intro rows
    refine ⟨rows.map (fun r => .parsed (parseFingerprint6 r)) ++
      (rows.map parseFingerprint6).map .stored, by simp [loadFingerprints6Trace], ?_⟩
    intro r hr
    exact List.mem_append_right _ (List.mem_map_of_mem _ (List.mem_map_of_mem _ hr))
  · intro beaconRows wlanRows bleRows
    refine ⟨(loadDatasetFrames beaconRows wlanRows bleRows).map .parsed ++
      (loadDatasetFrames beaconRows wlanRows bleRows).map .stored,
      by simp [loadDataset12Trace], ?_⟩
    intro f hf
    exact List.mem_append_right _ (List.mem_map_of_mem _ hf)

/-- C5 witness: for a one-row beacon file, the parsed beacon is stored
before the 6-server initBeacons promise resolves. -/
theorem calibration_loading_stores_before_resolve_witness :
    ∃ pre, initBeacons6Trace [⟨"5DC48FBFB912", 0, 5, 3⟩] = pre ++ [.resolve] ∧
      LoadEvent.stored (parseBeacon6 ⟨"5DC48FBFB912", 0, 5, 3⟩) ∈ pre := by
  obtain ⟨pre, heq, hmem⟩ :=
    calibration_loading_stores_before_resolve.2.1 [⟨"5DC48FBFB912", 0, 5, 3⟩]
  exact ⟨pre, heq, hmem _ (by decide)⟩

/-- C6: each of the five processing-node kinds named by the spec, namely
multilateration, RSSI-to-distance conversion, KNN fingerprinting, cell
identification and frame merging, is instantiated by at least one example. -/
theorem five_node_kinds_instantiated :
    (∃ p ∈ allNodes, p.isMultilateration = true) ∧
    (∃ p ∈ allNodes, p.isRRP = true) ∧
    (∃ p ∈ allNodes, p.isKNN = true) ∧
    (∃ p ∈ allNodes, p.isCellId = true) ∧
    (∃ p ∈ allNodes, p.isFrameMerge = true) := by
  decide

/-- C7: every node and every service the examples instantiate uses only
constructors imported from @openhps packages; the nodes without an imported
constructor are the placeholders, empty sources and GraphBuilder methods,
which are pure composition. -/
theorem constructors_from_openhps_packages :
    (∀ p ∈ allNodes, (ctorName p).all importedFromOpenhps = true) ∧
    (∀ s ∈ allServices, ((serviceCtorNames s).all importedFromOpenhps) = true) := by
  decide

/-- C7 witness: the 6-server multilateration node and the 6-server socket
server service use only @openhps constructors. -/
theorem constructors_from_openhps_packages_witness :
    (ml6 ∈ allNodes ∧ (ctorName ml6).all importedFromOpenhps = true) ∧
    (Service.socketServer 3000 "/api/v1" ∈ allServices ∧
      ((serviceCtorNames (.socketServer 3000 "/api/v1")).all importedFromOpenhps) = true) :=
  ⟨⟨by decide, constructors_from_openhps_packages.1 ml6 (by decide)⟩,
   ⟨by decide, constructors_from_openhps_packages.2 (.socketServer 3000 "/api/v1") (by decide)⟩⟩

/-- C8: every server example listens on port 3000 and registers its
SocketServer at path /api/v1, and every client example connects its
SocketClient to http://localhost:3000 at path /api/v1. -/
theorem shared_transport_endpoint :
    (∀ e ∈ serverExamples, e.httpPort = 3000 ∧
      Service.socketServer 3000 "/api/v1" ∈ e.services ∧
      ∀ s ∈ e.services, s.isSocketServer = true → s = .socketServer 3000 "/api/v1") ∧
    (∀ c ∈ clientExamples,
      Service.socketClient "http://localhost:3000" "/api/v1" ∈ c.services ∧
      ∀ s ∈ c.services, s.isSocketClient = true →
        s = .socketClient "http://localhost:3000" "/api/v1") := by
  decide

/-- C8 witness: the 1-server example and the 5-client example use the shared
endpoint. -/
theorem shared_transport_endpoint_witness :
    ({ name := "1-server", httpPort := 3000, services := server1Services,
       chains := server1Chains } : ServerExample) ∈ serverExamples ∧
    ({ name := "5-client", services := clientServices,
       chains := client5Chains } : ClientExample) ∈ clientExamples ∧
    (3000 : ℕ) = 3000 ∧
    Service.socketServer 3000 "/api/v1" ∈ server1Services ∧
    Service.socketClient "http://localhost:3000" "/api/v1" ∈ clientServices := by
  refine ⟨by decide, by decide, ?_, ?_, ?_⟩
  · exact (shared_transport_endpoint.1
      { name := "1-server", httpPort := 3000, services := server1Services,
        chains := server1Chains } (by decide)).1
  · exact (shared_transport_endpoint.1
      { name := "1-server", httpPort := 3000, services := server1Services,
        chains := server1Chains } (by decide)).2.1
  · exact (shared_transport_endpoint.2
      { name := "5-client", services := clientServices,
        chains := client5Chains } (by decide)).1

/-- C9: in the 12-server online chains, every filter node occurring after a
positioning node is the position-timestamp filter, and that filter evaluates
to false whenever the frame source has no position and passes a frame only
when the source position timestamp is at least the frame created
timestamp. -/
theorem online_filters_position_safe :
    (∀ c ∈ server12OnlineChains, ∀ i j : Fin c.length, (i : ℕ) < (j : ℕ) →
      (c.get i).isPositioning = true → (c.get j).isFilter = true → c.get j = filterPos) ∧
    (∀ f : DataFrame,
      (f.source.position = none → evalFilter .posTimestamp f = false) ∧
      (evalFilter .posTimestamp f = true →
        ∃ p, f.source.position = some p ∧ f.createdTimestamp ≤ p.timestamp)) := by
  constructor
  · decide
  · intro f
    constructor
    · intro h
      simp [evalFilter, h]
    · intro h
      cases hp : f.source.position with
      | none => simp [evalFilter, hp] at h
      | some p =>
        refine ⟨p, rfl, ?_⟩
        simpa [evalFilter, hp] using h

/-- C9 witness: in the BLE KNN chain of the 12-server online stage the
filter after the KNN node is the position-timestamp filter, and on a frame
without a source position that filter evaluates to false. -/
theorem online_filters_position_safe_witness :
    (([PNode.socketServerSource "online" (some true), filterTrue, .cloneNode, knnBle12,
        filterPos, .accuracyModifierNode 15, merge12,
        .socketServerSink "feedback" false] : Chain).get ⟨4, by decide⟩ = filterPos) ∧
    evalFilter .posTimestamp { source := { uid := "mvdewync" } } = false :=
  ⟨online_filters_position_safe.1
      [PNode.socketServerSource "online" (some true), filterTrue, .cloneNode, knnBle12,
        filterPos, .accuracyModifierNode 15, merge12, .socketServerSink "feedback" false]
      (by decide) ⟨3, by decide⟩ ⟨4, by decide⟩ (by decide) (by decide) (by decide),
   (online_filters_position_safe.2 { source := { uid := "mvdewync" } }).1 rfl⟩

/-- C10: the 12-server training loaders add a RelativeRSSI for exactly the
columns whose key includes the expected pattern (BEACON_ for loadTrainBLE,
WAP_ for loadTrainWLAN) and whose parsed value is not 100, and consequently
every relative position they attach includes the pattern in its key and has
an RSSI different from the not-detected sentinel 100. -/
theorem train_loaders_relative_rssi_filtering :
    (∀ row : CsvRow, (parseTrainBLERow row).source.relativePositions =
      (row.filter (fun kv => strIncludes kv.1 "BEACON_" && decide (kv.2 ≠ 100))).map
        (fun kv => { referenceObjectUID := kv.1, rssi := kv.2 })) ∧
    (∀ row : CsvRow, (parseTrainWLANRow row).source.relativePositions =
      (row.filter (fun kv => strIncludes kv.1 "WAP_" && decide (kv.2 ≠ 100))).map
        (fun kv => { referenceObjectUID := kv.1, rssi := kv.2 })) ∧
    (∀ row : CsvRow, ∀ rel ∈ (parseTrainBLERow row).source.relativePositions,
      strIncludes rel.referenceObjectUID "BEACON_" = true ∧ rel.rssi ≠ 100) ∧
    (∀ row : CsvRow, ∀ rel ∈ (parseTrainWLANRow row).source.relativePositions,
      strIncludes rel.referenceObjectUID "WAP_" = true ∧ rel.rssi ≠ 100) := by
  refine ⟨fun row => collectRelativeRSSI_eq "BEACON_" row,
    fun row => collectRelativeRSSI_eq "WAP_" row,
    fun row => collectRelativeRSSI_mem "BEACON_" row,
    fun row => collectRelativeRSSI_mem "WAP_" row⟩

/-- C10 witness: on a concrete row with one detected beacon, one sentinel
value 100 and the position columns, only the detected beacon becomes a
relative position, and it satisfies the pattern and not-100 conditions. -/
theorem train_loaders_relative_rssi_filtering_witness :
    (parseTrainBLERow [("BEACON_1", -50), ("BEACON_2", 100), ("X", 1), ("Y", 2)]
      ).source.relativePositions = [{ referenceObjectUID := "BEACON_1", rssi := -50 }] ∧
    (strIncludes "BEACON_1" "BEACON_" = true ∧ (-50 : ℚ) ≠ 100) := by
  constructor
  · rw [train_loaders_relative_rssi_filtering.1]
    decide
  · exact train_loaders_relative_rssi_filtering.2.2.1
      [("BEACON_1", -50), ("BEACON_2", 100), ("X", 1), ("Y", 2)]
      { referenceObjectUID := "BEACON_1", rssi := -50 }
      (by rw [train_loaders_relative_rssi_filtering.1]; decide)

end OpenHPSExamples
